import Mathlib

/-!
Verification of the VacuuMVP back-office API core: entity model,
query/pagination engine, lifecycle (create/update/delete) operations and
statistics, shallowly embedded from the Python source under app/helper and
app/db.

The repository mixes two schema revisions (app/db/models.py is the earlier
one, in which Machine owns serial_no and ServiceReport carries machine_id;
most of app/helper/machines.py is written against the later one, in which
SoldMachine owns serial_no and ServiceReport carries sold_machine_id). The
row structures below therefore carry the union of both revisions taken together;
every field present in app/db/models.py is kept under its source name, and
the fields of the later revision that the helper code reads but that are
missing from app/db/models.py (SoldMachine.serial_no,
SoldMachine.date_of_manufacturing, ServiceReport.sold_machine_id) are
modelled from the spec, as marked in their doc comments.
-/

namespace VacuuMVP

/-- Case-sensitive test that the character list p is a prefix of the second
list. -/
def startsChars : List Char → List Char → Bool
  | [], _ => true
  | _ :: _, [] => false
  | a :: as, b :: bs => a == b && startsChars as bs

/-- Test that p occurs as a contiguous sublist of the second list. -/
def hasSubChars (p : List Char) : List Char → Bool
  | [] => startsChars p []
  | c :: cs => startsChars p (c :: cs) || hasSubChars p cs

/-- Python str.lower, restricted to the character-wise lowering the data
uses (ASCII identifiers and names). -/
def pyLower (s : String) : String := ⟨s.data.map Char.toLower⟩

/-- SQL ILIKE with a pattern of the form percent-search-percent, applied to
a nullable text column: case-insensitive substring match, false on NULL
(SQL three-valued logic: NULL never matches). -/
def ilike (col : Option String) (search : String) : Bool :=
  match col with
  | none => false
  | some s => hasSubChars (pyLower search).data (pyLower s).data

/-- Python truthiness of a nullable string: None and the empty string are
falsy. -/
def pyTruthy : Option String → Bool
  | none => false
  | some s => !(s == "")

/-- Python expression a or b, for a nullable string a and a string b. -/
def pyOrStr (a : Option String) (b : String) : String :=
  match a with
  | none => b
  | some s => if s == "" then b else s

/-- Byte-wise order on strings (character lists), modelling the database
collation used by ORDER BY on text and timestamp columns; timestamps are
modelled as ISO-format strings so that this order coincides with time
order. -/
def strLeChars : List Char → List Char → Bool
  | [], _ => true
  | _ :: _, [] => false
  | a :: as, b :: bs => if a == b then strLeChars as bs else a.toNat ≤ b.toNat

/-- Order on strings used by the sort model. -/
def strLe (a b : String) : Bool := strLeChars a.data b.data

/-- Stable insertion used by the deterministic sort model: a is placed
before the first element b with before a b = true; on ties the existing
element stays first. -/
def insertStable (before : α → α → Bool) (a : α) : List α → List α
  | [] => [a]
  | b :: bs => if before a b then a :: b :: bs else b :: insertStable before a bs

/-- Deterministic stable sort (insertion sort). SQL ORDER BY and Python
sorted leave the relative order of equal keys to the engine; the spec only
requires a deterministic order for a fixed dataset, which this model fixes
as stability with respect to database row order. -/
def stableSort (before : α → α → Bool) : List α → List α
  | [] => []
  | a :: as => insertStable before a (stableSort before as)

/-- Sort a list ascending or descending by a string key, stable on ties,
modelling both SQL ORDER BY col ASC/DESC and Python sorted(key, reverse). -/
def sortByKey (key : α → String) (descending : Bool) (l : List α) : List α :=
  if descending then stableSort (fun a b => strLe (key b) (key a)) l
  else stableSort (fun a b => strLe (key a) (key b)) l

/-- Offset pagination exactly as every listing helper applies it: skip
(page - 1) * limit rows, return at most limit rows. -/
def paginate (l : List α) (page limit : Nat) : List α :=
  (l.drop ((page - 1) * limit)).take limit

/-- Number of pages for n rows at page size limit: ceiling of n / limit. -/
def pageCount (n limit : Nat) : Nat := (n + limit - 1) / limit

/-- Worker for distinctKeepFirst, carrying the set of values seen so far. -/
def distinctAux [BEq α] : List α → List α → List α
  | [], _ => []
  | a :: as, seen =>
      if seen.contains a then distinctAux as seen
      else a :: distinctAux as (a :: seen)

/-- Distinct values of a list keeping the first occurrence of each,
modelling SQL SELECT DISTINCT over query result rows. -/
def distinctKeepFirst [BEq α] (l : List α) : List α := distinctAux l []

/-! ## Entity store (app/db/models.py, plus the later-revision columns) -/

/-- Row of table role. -/
structure Role where
  id : String
  role_name : String
  created_at : String := ""
  deriving Repr, DecidableEq

/-- Row of table type (equipment type: pump, part). -/
structure TypeRow where
  id : String
  type : String
  created_at : String := ""
  deriving Repr, DecidableEq

/-- Row of table service_types. -/
structure ServiceType where
  id : String
  service_type : String
  created_at : String := ""
  deriving Repr, DecidableEq

/-- Row of table machines. serial_no and date_of_manufacturing are the
earlier-revision columns kept in app/db/models.py (nullable here because the
later-revision create path never sets them). -/
structure Machine where
  id : String
  serial_no : Option String := none
  model_no : String
  part_no : Option String := none
  type_id : Option String := none
  file_key : Option String := none
  date_of_manufacturing : Option String := none
  created_at : String := ""
  updated_at : String := ""
  deriving Repr, DecidableEq

/-- Row of table sold_machines. serial_no and date_of_manufacturing are
modelled from the spec: the later schema revision, which
app/helper/machines.py reads and writes, owns them on SoldMachine, while
the app/db/models.py checked into src is the earlier revision without
them. -/
structure SoldMachine where
  id : String
  user_id : Option String := none
  machine_id : String
  serial_no : Option String := none
  customer_company : Option String := none
  customer_name : Option String := none
  customer_contact : Option String := none
  customer_email : Option String := none
  customer_address : Option String := none
  date_of_manufacturing : Option String := none
  created_at : String := ""
  updated_at : String := ""
  deriving Repr, DecidableEq

/-- Row of table users. user_id is the external identity-provider subject
id. -/
structure User where
  id : String
  user_id : String := ""
  role_id : Option String := none
  name : Option String := none
  phone_number : Option String := none
  email : Option String := none
  is_active : Bool := true
  created_at : String := ""
  updated_at : String := ""
  deriving Repr, DecidableEq

/-- Row of table service_report. machine_id is the earlier-revision column
kept in app/db/models.py; sold_machine_id is modelled from the spec (the
later revision links a report to a SoldMachine, and
app/helper/machines.py walks that link as sold_machine.service_reports). -/
structure ServiceReport where
  id : String
  user_id : Option String := none
  machine_id : Option String := none
  sold_machine_id : Option String := none
  service_type_id : Option String := none
  problem : Option String := none
  solution : Option String := none
  service_person_name : Option String := none
  created_at : String := ""
  updated_at : String := ""
  deriving Repr, DecidableEq

/-- Row of table service_report_parts. -/
structure ServiceReportPart where
  id : String
  service_report_id : Option String := none
  machine_id : Option String := none
  quantity : Nat := 1
  created_at : String := ""
  updated_at : String := ""
  deriving Repr, DecidableEq

/-- Row of table service_report_files. file_key is the object-store key. -/
structure ServiceReportFiles where
  id : String
  service_report_id : Option String := none
  file_key : String
  created_at : String := ""
  updated_at : String := ""
  deriving Repr, DecidableEq

/-- The relational store: one list per table, in database row order. -/
structure Db where
  roles : List Role := []
  types : List TypeRow := []
  serviceTypes : List ServiceType := []
  machines : List Machine := []
  soldMachines : List SoldMachine := []
  users : List User := []
  serviceReports : List ServiceReport := []
  serviceReportParts : List ServiceReportPart := []
  serviceReportFiles : List ServiceReportFiles := []
  deriving Repr, DecidableEq

/-- Error outcomes of the helper operations, by the HTTP status each raises:
notFound models HTTPException 404, conflict models the HTTPException 400
raised on a uniqueness violation (already exists), serverError models
HTTPException 500 raised from an except-block, and pythonError models an
uncaught Python exception (AttributeError, NameError) escaping the helper.
On every error path the surrounding transaction is rolled back, so the
database state is the unchanged input state. -/
inductive ApiError where
  | notFound
  | conflict
  | serverError
  | pythonError
  deriving Repr, DecidableEq

/-- Paginated listing response shape shared by every list helper. -/
structure Paged (α : Type) where
  total : Nat
  page : Nat
  limit : Nat
  has_next : Bool
  has_previous : Bool
  items : List α
  deriving Repr, DecidableEq

/-! ## Query engine: get_users_by_role (app/helper/users.py) -/

/-- Attribute names of the SQLAlchemy User class (columns and relationships
of app/db/models.py), as tested by hasattr(models.User, sort_by). -/
def userAttrs : List String :=
  ["id", "user_id", "role_id", "name", "phone_number", "email", "password",
   "is_active", "created_at", "updated_at", "role", "service_reports",
   "sold_machines"]

/-- Sort key of a User row for a given column name; nullable columns sort by
their value with NULL as the empty string (a deterministic rendering of the
database NULL ordering, which no claim depends on). -/
def userSortKey (attr : String) (u : User) : String :=
  match attr with
  | "id" => u.id
  | "user_id" => u.user_id
  | "role_id" => u.role_id.getD ""
  | "name" => u.name.getD ""
  | "phone_number" => u.phone_number.getD ""
  | "email" => u.email.getD ""
  | "is_active" => if u.is_active then "1" else "0"
  | "updated_at" => u.updated_at
  | _ => u.created_at

/-- Users of the given role: join of User with Role on role_id filtered to
role_obj.id, as built in get_users_by_role. -/
def roleFilteredUsers (db : Db) (roleId : String) : List User :=
  db.users.filter (fun u => u.role_id == some roleId)

/-- Optional free-text search of get_users_by_role: case-insensitive
substring match OR-combined over name, email and phone_number; absent or
empty search (Python falsy) returns all rows. -/
def searchUsers (search : Option String) (l : List User) : List User :=
  match search with
  | none => l
  | some s =>
      if s == "" then l
      else l.filter (fun u =>
        ilike u.name s || ilike u.email s || ilike u.phone_number s)

/-- Sorting step of get_users_by_role: if sort_by names a User attribute,
ORDER BY that column in the requested direction; otherwise fall back to
ORDER BY created_at DESC (note: the fallback ignores sort_order). -/
def sortUsersSql (sort_by sort_order : String) (l : List User) : List User :=
  if userAttrs.contains sort_by then
    sortByKey (userSortKey sort_by) (pyLower sort_order == "desc") l
  else
    sortByKey (fun u => u.created_at) true l

/-- The full filtered and sorted user list that get_users_by_role paginates. -/
def usersFullList (db : Db) (roleId : String) (search : Option String)
    (sort_by sort_order : String) : List User :=
  sortUsersSql sort_by sort_order (searchUsers search (roleFilteredUsers db roleId))

/-- get_users_by_role (app/helper/users.py): look up the role by name (404
if absent), filter users of that role, apply search, count the total before
pagination, sort, paginate, and report has_next = page * limit < total and
has_previous = page > 1. Items are returned as their full rows (the source
serialises each row to a dict, a projection no claim depends on). -/
def get_users_by_role (role_name : String) (search : Option String)
    (sort_by sort_order : String) (page limit : Nat) (db : Db) :
    Except ApiError (Paged User) :=
  match db.roles.find? (fun r => r.role_name == role_name) with
  | none => .error .notFound
  | some role_obj =>
      let full := usersFullList db role_obj.id search sort_by sort_order
      .ok { total := full.length, page := page, limit := limit,
            has_next := decide (page * limit < full.length),
            has_previous := decide (1 < page),
            items := paginate full page limit }

/-- Items of one page of get_users_by_role, empty on an error response. -/
def usersPageItems (role_name : String) (search : Option String)
    (sort_by sort_order : String) (page limit : Nat) (db : Db) : List User :=
  match get_users_by_role role_name search sort_by sort_order page limit db with
  | .ok r => r.items
  | .error _ => []

/-! ## Query engine: get_sold_machines_by_type (app/helper/machines.py) -/

/-- Attribute names of the SQLAlchemy Machine class (columns and
relationships of app/db/models.py), as tested by
hasattr(models.Machine, sort_by). -/
def machineAttrs : List String :=
  ["id", "serial_no", "model_no", "part_no", "type_id", "file_key",
   "date_of_manufacturing", "created_at", "updated_at", "machine_type",
   "service_reports", "service_parts", "sold_info"]

/-- Python sort key getattr(m, sort_attr) or "" of a Machine row: the value
of the named column with None replaced by the empty string. -/
def machineSortKey (attr : String) (m : Machine) : String :=
  match attr with
  | "id" => m.id
  | "serial_no" => m.serial_no.getD ""
  | "model_no" => m.model_no
  | "part_no" => m.part_no.getD ""
  | "type_id" => m.type_id.getD ""
  | "file_key" => m.file_key.getD ""
  | "date_of_manufacturing" => m.date_of_manufacturing.getD ""
  | "updated_at" => m.updated_at
  | _ => m.created_at

/-- Joined row set of get_sold_machines_by_type: INNER JOIN of Machine with
SoldMachine on machine_id, restricted to machines of the requested type (the
further join with Type adds no rows once the type row is known to exist). -/
def soldJoinRows (db : Db) (typeId : String) : List (Machine × SoldMachine) :=
  (db.machines.filter (fun m => m.type_id == some typeId)).flatMap
    (fun m => (db.soldMachines.filter (fun sm => sm.machine_id == m.id)).map
      (fun sm => (m, sm)))

/-- Search filter of get_sold_machines_by_type over the joined rows:
serial_no, model_no, part_no from the machine side or sold-machine side as
in the source, customer name, email and company. -/
def searchSoldJoin (search : Option String) (l : List (Machine × SoldMachine)) :
    List (Machine × SoldMachine) :=
  match search with
  | none => l
  | some s =>
      if s == "" then l
      else l.filter (fun p =>
        ilike p.2.serial_no s || ilike (some p.1.model_no) s ||
        ilike p.1.part_no s || ilike p.2.customer_name s ||
        ilike p.2.customer_email s || ilike p.2.customer_company s)

/-- Distinct machine ids matched by get_sold_machines_by_type, in first
occurrence order. -/
def soldMachineIds (db : Db) (typeId : String) (search : Option String) :
    List String :=
  distinctKeepFirst ((searchSoldJoin search (soldJoinRows db typeId)).map
    (fun p => p.1.id))

/-- The machines re-fetched by id and sorted in Python that
get_sold_machines_by_type paginates: sort_by falls back to created_at when
it is not a Machine attribute, and reverse follows sort_order in both
cases. -/
def soldMachinesFullList (db : Db) (typeId : String) (search : Option String)
    (sort_by sort_order : String) : List Machine :=
  let ids := soldMachineIds db typeId search
  let fetched := db.machines.filter (fun m => ids.contains m.id)
  let sortAttr := if machineAttrs.contains sort_by then sort_by else "created_at"
  sortByKey (machineSortKey sortAttr) (pyLower sort_order == "desc") fetched

/-- get_sold_machines_by_type (app/helper/machines.py): look up the type by
name (404 if absent), join machines of that type with their sold rows, apply
search, take the distinct machine ids (total = their count), re-fetch those
machines, sort and slice them in Python, and report has_next =
page * limit < total and has_previous = page > 1. -/
def get_sold_machines_by_type (type_name : String) (search : Option String)
    (sort_by sort_order : String) (page limit : Nat) (db : Db) :
    Except ApiError (Paged Machine) :=
  match db.types.find? (fun t => t.type == type_name) with
  | none => .error .notFound
  | some type_obj =>
      let total := (soldMachineIds db type_obj.id search).length
      let full := soldMachinesFullList db type_obj.id search sort_by sort_order
      .ok { total := total, page := page, limit := limit,
            has_next := decide (page * limit < total),
            has_previous := decide (1 < page),
            items := paginate full page limit }

/-- Items of one page of get_sold_machines_by_type, empty on an error
response. -/
def soldPageItems (type_name : String) (search : Option String)
    (sort_by sort_order : String) (page limit : Nat) (db : Db) : List Machine :=
  match get_sold_machines_by_type type_name search sort_by sort_order page limit db with
  | .ok r => r.items
  | .error _ => []

/-! ## Lifecycle: create (app/helper/machines.py) -/

/-- Form data of the create-machine routes (model_no required, part_no
optional; file_key is never supplied by the router but machine_data.get
reads it as a fallback). -/
structure MachineCreate where
  model_no : String
  part_no : Option String := none
  file_key : Option String := none
  deriving Repr, DecidableEq

/-- create_machine_by_type (app/helper/machines.py): look up the type by
name (404), reject a part_no already present on some machine (400 already
exists, before any mutation), upload the optional file through the
object-store collaborator (upload is the collaborator outcome: the stored
key on success, none on failure, which aborts with a 500 before any row is
written), then insert the new machine row. newId stands for the generated
uuid4 and now for the server-side creation timestamp. -/
def create_machine_by_type (type_name : String) (machine_data : MachineCreate)
    (file : Bool) (upload : Option String) (newId now : String) (db : Db) :
    Except ApiError (Db × Machine) :=
  match db.types.find? (fun t => t.type == type_name) with
  | none => .error .notFound
  | some type_obj =>
      match db.machines.find? (fun m => m.part_no == machine_data.part_no) with
      | some _ => .error .conflict
      | none =>
          let fileKeyResult : Except ApiError (Option String) :=
            if file then
              match upload with
              | some k => .ok (some k)
              | none => .error .serverError
            else .ok none
          match fileKeyResult with
          | .error e => .error e
          | .ok file_key =>
              let new_machine : Machine :=
                { id := newId, model_no := machine_data.model_no,
                  part_no := machine_data.part_no,
                  type_id := some type_obj.id,
                  file_key := match file_key with
                              | some k => some k
                              | none => machine_data.file_key,
                  created_at := now, updated_at := now }
              .ok ({ db with machines := db.machines ++ [new_machine] },
                   new_machine)

/-- Form data of the create-sold-pump route. -/
structure SoldMachineCreate where
  model_no : String := ""
  part_no : Option String := none
  serial_no : String
  customer_company : Option String := none
  customer_name : Option String := none
  customer_contact : Option String := none
  customer_email : Option String := none
  customer_address : Option String := none
  date_of_manufacturing : Option String := none
  deriving Repr, DecidableEq

/-- create_sold_machine (app/helper/machines.py): look up an existing sold
machine with the requested serial_no and the machine with the requested
part_no; a taken serial_no raises 400 already exists. The source contains no
existence check for the machine: when no machine matches the part_no, the
lookup yields None and the subsequent machine.id raises an uncaught
AttributeError (pythonError) outside the try block, before any row is
inserted. Otherwise the sold machine row is inserted with the matched
machine id. The file parameter of the source is accepted and never used. -/
def create_sold_machine (machine_data : SoldMachineCreate) (file : Bool)
    (newId now : String) (db : Db) : Except ApiError (Db × SoldMachine) :=
  match db.soldMachines.find? (fun sm => sm.serial_no == some machine_data.serial_no) with
  | some _ => .error .conflict
  | none =>
      match db.machines.find? (fun m => m.part_no == machine_data.part_no) with
      | none => .error .pythonError
      | some machine =>
          let new_sold : SoldMachine :=
            { id := newId, machine_id := machine.id,
              serial_no := some machine_data.serial_no,
              customer_company := machine_data.customer_company,
              customer_name := machine_data.customer_name,
              customer_contact := machine_data.customer_contact,
              customer_email := machine_data.customer_email,
              customer_address := machine_data.customer_address,
              date_of_manufacturing := machine_data.date_of_manufacturing,
              created_at := now, updated_at := now }
          .ok ({ db with soldMachines := db.soldMachines ++ [new_sold] },
               new_sold)

/-! ## Lifecycle: cascade delete of a machine (app/helper/machines.py) -/

/-- Service reports of one sold machine, the relationship
sold_machine.service_reports of the later schema revision (reports whose
sold_machine_id references the sold machine). -/
def reportsOfSold (db : Db) (sm : SoldMachine) : List ServiceReport :=
  db.serviceReports.filter (fun r => r.sold_machine_id == some sm.id)

/-- Files of one service report, the relationship
report.service_report_files. -/
def filesOfReport (db : Db) (r : ServiceReport) : List ServiceReportFiles :=
  db.serviceReportFiles.filter (fun f => f.service_report_id == some r.id)

/-- Parts of one service report, the relationship report.parts. -/
def partsOfReport (db : Db) (r : ServiceReport) : List ServiceReportPart :=
  db.serviceReportParts.filter (fun p => p.service_report_id == some r.id)

/-- Sold machines referencing one machine. -/
def soldOfMachine (db : Db) (machineId : String) : List SoldMachine :=
  db.soldMachines.filter (fun sm => sm.machine_id == machineId)

/-- True when the report belongs to some sold machine of the machine being
deleted (the subtree walked by delete_machine). -/
def reportInSubtree (db : Db) (machineId : String) (r : ServiceReport) : Bool :=
  (soldOfMachine db machineId).any (fun sm => r.sold_machine_id == some sm.id)

/-- Object-store keys delete_machine requests, in request order: the
own file_key of the machine first (requested unconditionally - delete_file never
raises, a failure is reported in its return value and, for report files,
logged), then the key of every file of every report of every sold machine
of this machine. -/
def deleteMachineRequestedKeys (db : Db) (machine : Machine) :
    List (Option String) :=
  machine.file_key ::
    ((soldOfMachine db machine.id).flatMap (fun sm => (reportsOfSold db sm).flatMap
      (fun r => (filesOfReport db r).map (fun f => some f.file_key))))

/-- Database state committed by delete_machine: every file row and part row
of every report in the sold-machine subtree of the machine is deleted, every
subtree report row and sold machine row is deleted, every part row
referencing the machine directly is bulk-deleted, and the machine row is
deleted. Row deletion is by primary key, modelled as filtering the deleted
keys out of each table. -/
def deleteMachineNewDb (db : Db) (machine : Machine) (machine_id : String) : Db :=
  let subtreeReports := db.serviceReports.filter (reportInSubtree db machine.id)
  { db with
    serviceReportFiles := db.serviceReportFiles.filter
      (fun f => !(subtreeReports.any (fun r => f.service_report_id == some r.id))),
    serviceReportParts := db.serviceReportParts.filter
      (fun p => !(subtreeReports.any (fun r => p.service_report_id == some r.id))
                && !(p.machine_id == some machine.id)),
    serviceReports := db.serviceReports.filter
      (fun r => !(reportInSubtree db machine.id r)),
    soldMachines := db.soldMachines.filter
      (fun sm => !(sm.machine_id == machine.id)),
    machines := db.machines.filter (fun m => !(m.id == machine_id)) }

/-- delete_machine (app/helper/machines.py): after the 404 check, request
the object-store deletions of deleteMachineRequestedKeys, perform the row
cascade of deleteMachineNewDb and commit. The audit summary dict of the
source is not modelled; no claim depends on it. -/
def delete_machine (machine_id : String) (db : Db) :
    Except ApiError (Db × List (Option String)) :=
  match db.machines.find? (fun m => m.id == machine_id) with
  | none => .error .notFound
  | some machine =>
      .ok (deleteMachineNewDb db machine machine_id,
           deleteMachineRequestedKeys db machine)

/-! ## Lifecycle: update (app/helper/machines.py) -/

/-- update_machine_details (app/helper/machines.py): the function parameter
is sold_machine_id, but the first statement of the body filters on the undefined
name machine_id, so every invocation raises NameError; the blanket except
rolls the (empty) transaction back and raises HTTPException 500. No partial
update or sold-machine upsert is ever reached. machine_data is the
already-cleaned field dict of the router (pairs of field name and value). -/
def update_machine_details (sold_machine_id : String)
    (machine_data : List (String × String)) (db : Db) :
    Except ApiError (Db × Unit) :=
  .error .serverError

/-! ## Lifecycle: delete user (app/helper/users.py) -/

/-- Object-store delete attempt of delete_user (app/helper/users.py): the
module references AWSService without importing it, so constructing the
client raises NameError on every attempt; the surrounding per-file
try/except swallows the exception and logs a warning, hence no request ever
reaches the object store. The result is the requested key on success and
none on failure - here always none. -/
def usersHelperAwsDelete (fileKey : String) : Option String := none

/-- Service reports authored by one user. -/
def reportsOfUser (db : Db) (userId : String) : List ServiceReport :=
  db.serviceReports.filter (fun r => r.user_id == some userId)

/-- delete_user (app/helper/users.py): 404 when no user has the id;
otherwise attempt an object-store delete for every file of every report
authored by the user (each attempt fails as usersHelperAwsDelete records),
attempt the identity-provider account deletion (supabaseOk is the
collaborator outcome; a failure is caught and only logged, so the result
does not depend on it), delete the user row and commit, leaving dependent
rows to the database layer (the source performs no further row deletion
itself). Returns the new state with the object-store keys actually
requested. -/
def delete_user (user_id : String) (supabaseOk : Bool) (db : Db) :
    Except ApiError (Db × List String) :=
  match db.users.find? (fun u => u.id == user_id) with
  | none => .error .notFound
  | some _ =>
      let requested : List String :=
        ((reportsOfUser db user_id).flatMap (fun r => filesOfReport db r)).filterMap
          (fun f => usersHelperAwsDelete f.file_key)
      .ok ({ db with users := db.users.filter (fun u => !(u.id == user_id)) },
           requested)

/-! ## Report assembly: get_service_report_detail
(app/helper/service_report.py and app/helper/dashboard.py, identical
logic in both; they are written against the earlier schema revision that
app/db/models.py declares, reading Machine.serial_no and
ServiceReport.machine_id). -/

/-- Machine info block of the detail view. -/
structure SRMachineInfo where
  serial_no : Option String := none
  model_no : Option String := none
  part_no : Option String := none
  type_name : Option String := none
  date_of_manufacturing : Option String := none
  deriving Repr, DecidableEq

/-- Customer info block of the detail view. -/
structure SRCustomerInfo where
  customer_name : Option String := none
  customer_email : Option String := none
  customer_contact : Option String := none
  customer_address : Option String := none
  sold_date : Option String := none
  deriving Repr, DecidableEq

/-- One file entry of the detail view, with its resolved access URL. -/
structure SRFileInfo where
  id : String
  file_key : String
  file_url : String
  created_at : String
  deriving Repr, DecidableEq

/-- One part entry of the detail view, joined with the part machine. -/
structure SRPartInfo where
  id : String
  machine_serial_no : Option String := none
  machine_model_no : String := ""
  machine_part_no : Option String := none
  quantity : Nat
  created_at : String
  deriving Repr, DecidableEq

/-- The assembled denormalized report detail view, consumed by the detail
API response and the PDF renderer. -/
structure ServiceReportDetail where
  id : String
  user_name : String
  user_email : Option String
  service_type_name : String
  machine_info : Option SRMachineInfo
  customer_info : Option SRCustomerInfo
  problem : Option String
  solution : Option String
  service_person_name : Option String
  files : List SRFileInfo
  parts : List SRPartInfo
  created_at : String
  updated_at : String
  deriving Repr, DecidableEq

/-- First row of the detail query: the report with the given id INNER
JOINed with its author User row and its ServiceType row (a NULL foreign key
or missing referenced row yields no row, the not-found path). -/
def detailRow (db : Db) (reportId : String) :
    Option (ServiceReport × User × ServiceType) := do
  let r ← db.serviceReports.find? (fun x => x.id == reportId)
  let uid ← r.user_id
  let u ← db.users.find? (fun x => x.id == uid)
  let sid ← r.service_type_id
  let st ← db.serviceTypes.find? (fun x => x.id == sid)
  pure (r, u, st)

/-- LEFT OUTER JOIN of the detail query with Machine on
ServiceReport.machine_id (NULL joins nothing). -/
def detailMachine (db : Db) (r : ServiceReport) : Option Machine :=
  match r.machine_id with
  | none => none
  | some mid => db.machines.find? (fun m => m.id == mid)

/-- LEFT OUTER JOIN of the detail query with SoldMachine on
SoldMachine.machine_id = ServiceReport.machine_id and SoldMachine.user_id =
ServiceReport.user_id (SQL equality, so a NULL on either side joins
nothing). -/
def detailSold (db : Db) (r : ServiceReport) : Option SoldMachine :=
  db.soldMachines.find? (fun sm =>
    (match r.machine_id with
     | some mid => sm.machine_id == mid
     | none => false)
    &&
    (match sm.user_id, r.user_id with
     | some a, some b => a == b
     | _, _ => false))

/-- Assembly step of get_service_report_detail over the joined row
(report, author, service type). presign is the object-store collaborator
(some url on success, none on failure, in which case the direct bucket URL
is constructed); bucket and region name the configured store. The author
display name is user_name or user_email or "Unknown User" (Python or, empty
strings falsy); machine and customer blocks are None unless some of their
joined columns are truthy; files and parts are the rows of the report,
parts INNER JOINed with their part machine. -/
def assembleDetail (reportId : String) (presign : String → Option String)
    (bucket region : String) (db : Db) (r : ServiceReport) (u : User)
    (st : ServiceType) : ServiceReportDetail :=
      let m? := detailMachine db r
      let tname? : Option String :=
        match m? >>= (fun m => m.type_id) with
        | none => none
        | some tid => (db.types.find? (fun t => t.id == tid)).map (fun t => t.type)
      let sold? := detailSold db r
      let machine_serial_no := m? >>= (fun m => m.serial_no)
      let machine_model_no := m?.map (fun m => m.model_no)
      let machine_part_no := m? >>= (fun m => m.part_no)
      let customer_name := sold? >>= (fun s => s.customer_name)
      let customer_email := sold? >>= (fun s => s.customer_email)
      let customer_contact := sold? >>= (fun s => s.customer_contact)
      let customer_address := sold? >>= (fun s => s.customer_address)
      let machine_info : Option SRMachineInfo :=
        if pyTruthy machine_serial_no || pyTruthy machine_model_no
           || pyTruthy machine_part_no then
          some { serial_no := machine_serial_no, model_no := machine_model_no,
                 part_no := machine_part_no, type_name := tname?,
                 date_of_manufacturing := m? >>= (fun m => m.date_of_manufacturing) }
        else none
      let customer_info : Option SRCustomerInfo :=
        if pyTruthy customer_name || pyTruthy customer_email
           || pyTruthy customer_contact || pyTruthy customer_address then
          some { customer_name := customer_name, customer_email := customer_email,
                 customer_contact := customer_contact,
                 customer_address := customer_address,
                 sold_date := sold?.map (fun s => s.created_at) }
        else none
      let files := (db.serviceReportFiles.filter
          (fun f => f.service_report_id == some reportId)).map (fun f =>
        { id := f.id, file_key := f.file_key,
          file_url := match presign f.file_key with
                      | some url => url
                      | none => "https://" ++ bucket ++ ".s3." ++ region
                                ++ ".amazonaws.com/" ++ f.file_key,
          created_at := f.created_at : SRFileInfo })
      let parts := (db.serviceReportParts.filter
          (fun p => p.service_report_id == some reportId)).filterMap (fun p =>
        match p.machine_id with
        | none => none
        | some pmid =>
            (db.machines.find? (fun m => m.id == pmid)).map (fun pm =>
              { id := p.id, machine_serial_no := pm.serial_no,
                machine_model_no := pm.model_no, machine_part_no := pm.part_no,
                quantity := p.quantity, created_at := p.created_at : SRPartInfo }))
      { id := r.id,
        user_name := pyOrStr u.name (pyOrStr u.email "Unknown User"),
        user_email := u.email, service_type_name := st.service_type,
        machine_info := machine_info, customer_info := customer_info,
        problem := r.problem, solution := r.solution,
        service_person_name := r.service_person_name,
        files := files, parts := parts,
        created_at := r.created_at, updated_at := r.updated_at }

/-- get_service_report_detail entry: resolve the joined row (a missing
report or failed author or service-type join raises through the blanket
except as a server error) and assemble the view. -/
def get_service_report_detail (reportId : String)
    (presign : String → Option String) (bucket region : String) (db : Db) :
    Except ApiError ServiceReportDetail :=
  match detailRow db reportId with
  | none => .error .serverError
  | some (r, u, st) =>
      .ok (assembleDetail reportId presign bucket region db r u st)

/-! ## Statistics: get_service_type_statistics (app/helper/dashboard.py) -/

/-- The fixed taxonomy list the histogram reports over. -/
def expectedServiceTypes : List String :=
  ["Warranty", "AMC", "Paid", "Installation", "Health Check"]

/-- Reports counted into the name group: rows of the LEFT OUTER JOIN of
ServiceType with ServiceReport on service_type_id, grouped by
ServiceType.service_type; count(ServiceReport.id) counts the joined report
rows of every service-type row bearing exactly this name. -/
def serviceTypeGroupCount (db : Db) (name : String) : Nat :=
  (db.serviceReports.filter (fun r =>
    db.serviceTypes.any (fun st =>
      st.service_type == name && some st.id == r.service_type_id))).length

/-- The GROUP BY result as the Python counts_dict: one entry per distinct
service_type name with its count. SQL leaves the group order unspecified;
the model fixes it to first appearance in table row order. -/
def serviceTypeCountsDict (db : Db) : List (String × Nat) :=
  (distinctKeepFirst (db.serviceTypes.map (fun st => st.service_type))).map
    (fun name => (name, serviceTypeGroupCount db name))

/-- get_service_type_statistics: for each expected taxonomy type, scan
counts_dict in order and take the count of the first truthy (non-empty)
name equal to it case-insensitively, defaulting to 0; every expected type
yields an entry even when no ServiceType row or report exists. -/
def get_service_type_statistics (db : Db) : List (String × Nat) :=
  expectedServiceTypes.map (fun t =>
    (t, match (serviceTypeCountsDict db).find?
          (fun g => !(g.1 == "") && pyLower g.1 == pyLower t) with
        | some g => g.2
        | none => 0))

/-- Count stated by the spec for one expected type: ServiceReport rows whose
ServiceType name matches the type case-insensitively. Modelled from the
spec, for comparison with the source behaviour. -/
def specServiceTypeCount (db : Db) (t : String) : Nat :=
  (db.serviceReports.filter (fun r =>
    db.serviceTypes.any (fun st =>
      pyLower st.service_type == pyLower t && some st.id == r.service_type_id))).length

/-! ## Role-scoped report listings (app/helper/service_report.py and
app/helper/dashboard.py) -/

/-- Admin check shared by get_user_service_reports and
get_recent_activities: the caller row is looked up by id, its role resolved
through role_id, and the role name compared to admin case-insensitively; a
missing user or unresolvable role yields False. -/
def isAdminUser (db : Db) (userId : String) : Bool :=
  match db.users.find? (fun u => u.id == userId) with
  | none => false
  | some u =>
      match u.role_id with
      | none => false
      | some rid =>
          match db.roles.find? (fun r => r.id == rid) with
          | none => false
          | some role => pyLower role.role_name == "admin"

/-- Scope of get_user_service_reports before search, sort and pagination:
all reports for an admin caller, only the caller-authored reports
otherwise. -/
def userServiceReportsScope (db : Db) (userId : String) : List ServiceReport :=
  if isAdminUser db userId then db.serviceReports
  else db.serviceReports.filter (fun r => r.user_id == some userId)

/-- Attribute names of the SQLAlchemy ServiceReport class (columns and
relationships of app/db/models.py), as tested by
hasattr(models.ServiceReport, sort_by). -/
def serviceReportAttrs : List String :=
  ["id", "user_id", "machine_id", "service_type_id", "problem", "solution",
   "service_person_name", "created_at", "updated_at", "user", "machine",
   "service_type", "parts", "service_report_files"]

/-- Sort key of a ServiceReport row for a given column name. -/
def serviceReportSortKey (attr : String) (r : ServiceReport) : String :=
  match attr with
  | "id" => r.id
  | "user_id" => r.user_id.getD ""
  | "machine_id" => r.machine_id.getD ""
  | "service_type_id" => r.service_type_id.getD ""
  | "problem" => r.problem.getD ""
  | "solution" => r.solution.getD ""
  | "service_person_name" => r.service_person_name.getD ""
  | "updated_at" => r.updated_at
  | _ => r.created_at

/-- Search filter shared by the report listings keyed on report text
columns: problem, solution, service_person_name. -/
def searchReports (search : Option String) (l : List ServiceReport) :
    List ServiceReport :=
  match search with
  | none => l
  | some s =>
      if s == "" then l
      else l.filter (fun r =>
        ilike r.problem s || ilike r.solution s || ilike r.service_person_name s)

/-- Sorting step shared by the report listings: a real ServiceReport column
sorts in the requested direction, anything else falls back to created_at
DESC. -/
def sortReportsSql (sort_by sort_order : String) (l : List ServiceReport) :
    List ServiceReport :=
  if serviceReportAttrs.contains sort_by then
    sortByKey (serviceReportSortKey sort_by) (pyLower sort_order == "desc") l
  else
    sortByKey (fun r => r.created_at) true l

/-- get_user_service_reports (app/helper/service_report.py): the role-scoped
report list with search, count-before-pagination, sort and offset
pagination; items are returned as their rows (the source serialises each
through build_service_report_response). -/
def get_user_service_reports (user_id : String) (search : Option String)
    (sort_by sort_order : String) (page limit : Nat) (db : Db) :
    Paged ServiceReport :=
  let full := sortReportsSql sort_by sort_order
    (searchReports search (userServiceReportsScope db user_id))
  { total := full.length, page := page, limit := limit,
    has_next := decide (page * limit < full.length),
    has_previous := decide (1 < page),
    items := paginate full page limit }

/-- INNER JOIN base of get_recent_activities: reports joined with their
author User row and ServiceType row (a NULL foreign key or missing
referenced row drops the report). -/
def recentJoined (db : Db) : List ServiceReport :=
  db.serviceReports.filter (fun r =>
    (match r.user_id with
     | some uid => db.users.any (fun u => u.id == uid)
     | none => false)
    &&
    (match r.service_type_id with
     | some sid => db.serviceTypes.any (fun st => st.id == sid)
     | none => false))

/-- Scope of get_recent_activities before search, sort and pagination: the
joined rows, restricted to the caller-authored ones unless the caller is an
admin. -/
def recentActivitiesScope (db : Db) (userId : String) : List ServiceReport :=
  if isAdminUser db userId then recentJoined db
  else (recentJoined db).filter (fun r => r.user_id == some userId)

/-- Search filter of get_recent_activities: author name, author email or
service-type name, read through the joins. -/
def searchRecent (db : Db) (search : Option String) (l : List ServiceReport) :
    List ServiceReport :=
  match search with
  | none => l
  | some s =>
      if s == "" then l
      else l.filter (fun r =>
        (match r.user_id >>= (fun uid => db.users.find? (fun u => u.id == uid)) with
         | some u => ilike u.name s || ilike u.email s
         | none => false)
        ||
        (match r.service_type_id >>=
               (fun sid => db.serviceTypes.find? (fun st => st.id == sid)) with
         | some st => ilike (some st.service_type) s
         | none => false))

/-- Sorting of get_recent_activities: a real ServiceReport column or the
created_at fallback, with sort_order applied in both cases. -/
def sortRecent (sort_by sort_order : String) (l : List ServiceReport) :
    List ServiceReport :=
  let attr := if serviceReportAttrs.contains sort_by then sort_by else "created_at"
  sortByKey (serviceReportSortKey attr) (!(pyLower sort_order == "asc")) l

/-- get_recent_activities (app/helper/dashboard.py): the role-scoped joined
report list with search, sort, count and offset pagination; has_next is
computed from total_pages = ceil(total / limit) (1 when total = 0), items
are the underlying report rows (the source projects each to an activity
dict). -/
def get_recent_activities (user_id : String) (search : Option String)
    (sort_by sort_order : String) (page limit : Nat) (db : Db) :
    Paged ServiceReport :=
  let full := sortRecent sort_by sort_order
    (searchRecent db search (recentActivitiesScope db user_id))
  let total := full.length
  let total_pages := if 0 < total then pageCount total limit else 1
  { total := total, page := page, limit := limit,
    has_next := decide (page < total_pages),
    has_previous := decide (1 < page),
    items := paginate full page limit }

/-! ## Result projections used by concrete evaluations -/

/-- Author display name of the assembled detail view for a report id, under
a presigning collaborator that always fails and a fixed bucket and region
(none of which influence the name); none when assembly errors. -/
def detailUserName (reportId : String) (db : Db) : Option String :=
  match get_service_report_detail reportId (fun _ => none) "bkt" "reg" db with
  | .ok d => some d.user_name
  | .error _ => none

/-- Object-store keys requested by delete_user, none when it errors. -/
def deleteUserKeys (user_id : String) (supabaseOk : Bool) (db : Db) :
    Option (List String) :=
  match delete_user user_id supabaseOk db with
  | .ok out => some out.2
  | .error _ => none

/-! ## Per-claim contracts -/

/-- Pagination contract of one listing response against the full filtered
and sorted row list: the page slice starts at offset (page - 1) * limit and
holds at most limit rows, total is the size of the full set, and the
boundary flags match the page arithmetic. -/
def listingPageOk (resp : Paged α) (full : List α) (p L : Nat) : Prop :=
  resp.items = paginate full p L ∧
  resp.items.length ≤ L ∧
  resp.total = full.length ∧
  (resp.has_next = true ↔ p * L < full.length) ∧
  (resp.has_previous = true ↔ 1 < p)

/-- Concatenation of the items of pages 1 .. ceil(n / L). -/
def unionOfPages (pages : Nat → List α) (n L : Nat) : List α :=
  ((List.range (pageCount n L)).map (fun i => pages (i + 1))).flatten

/-- Pagination contract of get_users_by_role and
get_sold_machines_by_type for one fixed dataset, filter and sort: every
page satisfies listingPageOk against the full list, and the pages
1 .. ceil(N / L) concatenate back to exactly the full list (no duplicates,
no omissions). -/
def c3Contract (db : Db) (role_name type_name : String) (search : Option String)
    (sb so : String) (L : Nat) (ro : Role) (t : TypeRow) : Prop :=
  (∀ p, ∃ resp, get_users_by_role role_name search sb so p L db = .ok resp ∧
      listingPageOk resp (usersFullList db ro.id search sb so) p L) ∧
  unionOfPages (fun p => usersPageItems role_name search sb so p L db)
      (usersFullList db ro.id search sb so).length L
    = usersFullList db ro.id search sb so ∧
  (∀ p, ∃ resp, get_sold_machines_by_type type_name search sb so p L db = .ok resp ∧
      listingPageOk resp (soldMachinesFullList db t.id search sb so) p L) ∧
  unionOfPages (fun p => soldPageItems type_name search sb so p L db)
      (soldMachinesFullList db t.id search sb so).length L
    = soldMachinesFullList db t.id search sb so

/-- Postcondition of delete_machine on success: no row of any of the four
dependent tables remains for the subtree of the deleted machine, the machine row
is gone, and an object-store deletion was requested for the own
file_key of the machine and for every deleted service-report file. -/
def cascadeDeleteOk (machine_id : String) (db : Db) (machine : Machine) : Prop :=
  ∃ out : Db × List (Option String),
    delete_machine machine_id db = .ok out ∧
    (∀ sm ∈ out.1.soldMachines, ¬ sm.machine_id = machine_id) ∧
    (∀ r ∈ out.1.serviceReports, reportInSubtree db machine_id r = false) ∧
    (∀ f ∈ out.1.serviceReportFiles, ∀ r ∈ db.serviceReports,
        reportInSubtree db machine_id r = true → ¬ f.service_report_id = some r.id) ∧
    (∀ p ∈ out.1.serviceReportParts,
        (∀ r ∈ db.serviceReports, reportInSubtree db machine_id r = true →
            ¬ p.service_report_id = some r.id) ∧
        ¬ p.machine_id = some machine_id) ∧
    (∀ m ∈ out.1.machines, ¬ m.id = machine_id) ∧
    machine.file_key ∈ out.2 ∧
    (∀ f ∈ db.serviceReportFiles, ∀ r ∈ db.serviceReports,
        reportInSubtree db machine_id r = true → f.service_report_id = some r.id →
        some f.file_key ∈ out.2)

/-- Role-scope contract of the two report listings: an admin caller sees
every report the operation ranges over with no author restriction, any
other caller only the reports it authored; every returned page item lies in
that scope. -/
def c10Contract (db : Db) (uid : String) : Prop :=
  (isAdminUser db uid = true →
      userServiceReportsScope db uid = db.serviceReports ∧
      recentActivitiesScope db uid = recentJoined db) ∧
  (isAdminUser db uid = false →
      userServiceReportsScope db uid
        = db.serviceReports.filter (fun r => r.user_id == some uid) ∧
      recentActivitiesScope db uid
        = (recentJoined db).filter (fun r => r.user_id == some uid)) ∧
  (∀ search sb so p L, ∀ r ∈ (get_user_service_reports uid search sb so p L db).items,
      r ∈ userServiceReportsScope db uid) ∧
  (∀ search sb so p L, ∀ r ∈ (get_recent_activities uid search sb so p L db).items,
      r ∈ recentActivitiesScope db uid)

/-! ## Concrete datasets used by witnesses and counterexamples -/

/-- The machine of the cascade-delete scenario of the spec (two sold units,
each with one report carrying two files and one part, plus one direct part
usage from an unrelated report). -/
def mC1 : Machine :=
  { id := "m1", model_no := "PX100", part_no := some "P-1",
    type_id := some "t1", file_key := some "machines-P-1-key",
    created_at := "2024-01-01" }

/-- Cascade-delete scenario dataset. -/
def dbC1 : Db :=
  { types := [{ id := "t1", type := "pump" }, { id := "t2", type := "part" }],
    machines := [mC1,
      { id := "m2", model_no := "PRT-9", part_no := some "P-2",
        type_id := some "t2", created_at := "2024-01-02" }],
    soldMachines :=
      [{ id := "s1", machine_id := "m1", serial_no := some "SN-001" },
       { id := "s2", machine_id := "m1", serial_no := some "SN-002" }],
    serviceReports :=
      [{ id := "r1", user_id := some "u1", sold_machine_id := some "s1" },
       { id := "r2", user_id := some "u1", sold_machine_id := some "s2" },
       { id := "r3", user_id := some "u1" }],
    serviceReportParts :=
      [{ id := "p1", service_report_id := some "r1", machine_id := some "m2",
         quantity := 2 },
       { id := "p2", service_report_id := some "r2", machine_id := some "m2" },
       { id := "p3", service_report_id := some "r3", machine_id := some "m1" }],
    serviceReportFiles :=
      [{ id := "f1", service_report_id := some "r1", file_key := "k1" },
       { id := "f2", service_report_id := some "r1", file_key := "k2" },
       { id := "f3", service_report_id := some "r2", file_key := "k3" },
       { id := "f4", service_report_id := some "r2", file_key := "k4" }] }

/-- Dataset for the uniqueness-conflict witnesses: a pump type, a machine
with part number P-1 and a sold machine with serial SN-001. -/
def dbC2 : Db :=
  { types := [{ id := "t1", type := "pump" }],
    machines := [{ id := "m1", model_no := "PX100", part_no := some "P-1",
                   type_id := some "t1" }],
    soldMachines := [{ id := "s1", machine_id := "m1",
                       serial_no := some "SN-001" }] }

/-- Dataset for the pagination witness: one role with two users, one type
with two machines both sold. -/
def dbC3 : Db :=
  { roles := [{ id := "ro1", role_name := "distributor" }],
    types := [{ id := "t1", type := "pump" }],
    users :=
      [{ id := "u1", role_id := some "ro1", name := some "Ann",
         created_at := "2024-01-01" },
       { id := "u2", role_id := some "ro1", name := some "Ben",
         created_at := "2024-02-02" }],
    machines :=
      [{ id := "m1", model_no := "PX100", part_no := some "P-1",
         type_id := some "t1", created_at := "2024-01-01" },
       { id := "m2", model_no := "PX200", part_no := some "P-2",
         type_id := some "t1", created_at := "2024-01-02" }],
    soldMachines :=
      [{ id := "s1", machine_id := "m1", serial_no := some "SN-001" },
       { id := "s2", machine_id := "m2", serial_no := some "SN-002" }] }

/-- Dataset for the sort-fallback counterexample: one role, two users with
distinct creation timestamps. -/
def dbC5 : Db :=
  { roles := [{ id := "ro1", role_name := "distributor" }],
    users :=
      [{ id := "u1", role_id := some "ro1", created_at := "2024-01-01" },
       { id := "u2", role_id := some "ro1", created_at := "2024-02-02" }] }

/-- Dataset for the delete-user evaluation: one user who authored one
report carrying one stored file. -/
def dbC7 : Db :=
  { users := [{ id := "u7", user_id := "ext-7", email := some "d@x.io" }],
    serviceReports := [{ id := "r7", user_id := some "u7" }],
    serviceReportFiles :=
      [{ id := "f7", service_report_id := some "r7", file_key := "k7" }] }

/-- Report authored by an admin named Alice. -/
def dbC8a : Db :=
  { roles := [{ id := "ro1", role_name := "admin" }],
    serviceTypes := [{ id := "st1", service_type := "Warranty" }],
    users := [{ id := "u1", role_id := some "ro1", name := some "Alice",
                email := some "alice@x.io" }],
    serviceReports := [{ id := "r1", user_id := some "u1",
                         service_type_id := some "st1" }] }

/-- The same report authored by an admin named Bob. -/
def dbC8b : Db :=
  { roles := [{ id := "ro1", role_name := "admin" }],
    serviceTypes := [{ id := "st1", service_type := "Warranty" }],
    users := [{ id := "u1", role_id := some "ro1", name := some "Bob",
                email := some "bob@x.io" }],
    serviceReports := [{ id := "r1", user_id := some "u1",
                         service_type_id := some "st1" }] }

/-- Dataset with two case-variant AMC service-type rows: one report of the
first and two of the second. -/
def dbC9 : Db :=
  { serviceTypes := [{ id := "st1", service_type := "AMC" },
                     { id := "st2", service_type := "amc" }],
    serviceReports :=
      [{ id := "r1", service_type_id := some "st1" },
       { id := "r2", service_type_id := some "st2" },
       { id := "r3", service_type_id := some "st2" }] }

/-- Dataset for the role-scope witness: an admin and a distributor, one
report each. -/
def dbC10 : Db :=
  { roles := [{ id := "ro1", role_name := "Admin" },
              { id := "ro2", role_name := "distributer" }],
    serviceTypes := [{ id := "st1", service_type := "Warranty" }],
    users := [{ id := "ua", role_id := some "ro1", name := some "Adm" },
              { id := "ud", role_id := some "ro2", name := some "Dis" }],
    serviceReports :=
      [{ id := "ra", user_id := some "ua", service_type_id := some "st1",
         created_at := "2024-01-01" },
       { id := "rd", user_id := some "ud", service_type_id := some "st1",
         created_at := "2024-01-02" }] }

/-! ## General lemmas about the query-engine building blocks -/

theorem length_insertStable (bf : α → α → Bool) (a : α) (l : List α) :
    (insertStable bf a l).length = l.length + 1 := by
  induction l with
  | nil => rfl
  | cons b bs ih =>
      simp only [insertStable]
      split
      · simp
      · simp [ih]

theorem length_stableSort (bf : α → α → Bool) (l : List α) :
    (stableSort bf l).length = l.length := by
  induction l with
  | nil => rfl
  | cons a as ih => simp [stableSort, length_insertStable, ih]

theorem mem_insertStable {bf : α → α → Bool} {a x : α} {l : List α} :
    x ∈ insertStable bf a l ↔ x = a ∨ x ∈ l := by
  induction l with
  | nil => simp [insertStable]
  | cons b bs ih =>
      simp only [insertStable]
      split
      · simp
      · simp only [List.mem_cons, ih]
        tauto

theorem mem_stableSort {bf : α → α → Bool} {x : α} {l : List α} :
    x ∈ stableSort bf l ↔ x ∈ l := by
  induction l with
  | nil => simp [stableSort]
  | cons a as ih => simp [stableSort, mem_insertStable, ih]

theorem length_sortByKey (key : α → String) (d : Bool) (l : List α) :
    (sortByKey key d l).length = l.length := by
  unfold sortByKey
  split <;> exact length_stableSort _ _

theorem mem_sortByKey {key : α → String} {d : Bool} {x : α} {l : List α} :
    x ∈ sortByKey key d l ↔ x ∈ l := by
  unfold sortByKey
  split <;> exact mem_stableSort

theorem mem_paginate {l : List α} {p L : Nat} {x : α} (h : x ∈ paginate l p L) :
    x ∈ l := by
  unfold paginate at h
  exact List.mem_of_mem_drop (List.mem_of_mem_take h)

theorem length_paginate_le (l : List α) (p L : Nat) :
    (paginate l p L).length ≤ L := by
  unfold paginate
  simp [List.length_take]

theorem flatten_chunks (L : Nat) (hL : 0 < L) :
    ∀ (k : Nat) (l : List α), l.length ≤ k * L →
      ((List.range k).map (fun i => (l.drop (i * L)).take L)).flatten = l := by
  intro k
  induction k with
  | zero =>
      intro l hl
      simp at hl
      simp [hl]
  | succ k ih =>
      intro l hl
      rw [List.range_succ_eq_map]
      simp only [List.map_cons, List.map_map, List.flatten_cons]
      have h0 : (l.drop (0 * L)).take L = l.take L := by simp
      rw [h0]
      have hrest :
          (List.map ((fun i => (l.drop (i * L)).take L) ∘ Nat.succ) (List.range k)).flatten
            = l.drop L := by
        have heach : ((fun i => (l.drop (i * L)).take L) ∘ Nat.succ)
            = (fun i => ((l.drop L).drop (i * L)).take L) := by
          funext i
          simp only [Function.comp]
          rw [List.drop_drop]
          congr 2
          rw [Nat.succ_mul]
          omega
        rw [heach]
        apply ih
        rw [List.length_drop]
        have hkl : (k + 1) * L = k * L + L := by ring
        rw [hkl] at hl
        omega
      rw [hrest, List.take_append_drop]

theorem le_pageCount_mul (n L : Nat) (hL : 0 < L) : n ≤ pageCount n L * L := by
  cases n with
  | zero => simp
  | succ m =>
      have h1 : pageCount (m + 1) L = m / L + 1 := by
        unfold pageCount
        have : m + 1 + L - 1 = m + L := by omega
        rw [this, Nat.add_div_right _ hL]
      rw [h1, Nat.add_mul, Nat.one_mul]
      have := Nat.lt_div_mul_add (a := m) hL
      omega

theorem mem_distinctAux [BEq α] [LawfulBEq α] :
    ∀ (l seen : List α) (x : α),
      x ∈ distinctAux l seen ↔ (x ∈ l ∧ seen.contains x = false) := by
  intro l
  induction l with
  | nil => simp [distinctAux]
  | cons a as ih =>
      intro seen x
      simp only [distinctAux]
      by_cases hc : seen.contains a = true
      · rw [if_pos hc, ih]
        simp only [List.mem_cons]
        constructor
        · rintro ⟨hx, hs⟩
          exact ⟨Or.inr hx, hs⟩
        · rintro ⟨hx | hx, hs⟩
          · subst hx
            rw [hc] at hs
            cases hs
          · exact ⟨hx, hs⟩
      · rw [if_neg hc]
        have hcf : seen.contains a = false := by simpa using hc
        simp only [List.mem_cons, ih, List.contains_cons]
        constructor
        · rintro (rfl | ⟨hx, hs⟩)
          · exact ⟨Or.inl rfl, hcf⟩
          · simp only [Bool.or_eq_false_iff] at hs
            exact ⟨Or.inr hx, hs.2⟩
        · rintro ⟨rfl | hx, hs⟩
          · exact Or.inl rfl
          · by_cases hxa : (x == a) = true
            · exact Or.inl (eq_of_beq hxa)
            · have hxaf : (x == a) = false := by simpa using hxa
              exact Or.inr ⟨hx, by rw [hxaf, hs]; rfl⟩

theorem nodup_distinctAux [BEq α] [LawfulBEq α] :
    ∀ (l seen : List α), (distinctAux l seen).Nodup := by
  intro l
  induction l with
  | nil => intro seen; simp [distinctAux]
  | cons a as ih =>
      intro seen
      simp only [distinctAux]
      split
      · exact ih seen
      · rw [List.nodup_cons]
        refine ⟨?_, ih (a :: seen)⟩
        intro hmem
        rw [mem_distinctAux] at hmem
        simp at hmem

theorem mem_distinctKeepFirst [BEq α] [LawfulBEq α] {l : List α} {x : α} :
    x ∈ distinctKeepFirst l ↔ x ∈ l := by
  unfold distinctKeepFirst
  rw [mem_distinctAux]
  simp

theorem nodup_distinctKeepFirst [BEq α] [LawfulBEq α] (l : List α) :
    (distinctKeepFirst l).Nodup := nodup_distinctAux l []

theorem find?_eq_some_of_unique {l : List α} {p : α → Bool} {x : α}
    (hx : x ∈ l) (hp : p x = true) (hu : ∀ y ∈ l, p y = true → y = x) :
    l.find? p = some x := by
  induction l with
  | nil => cases hx
  | cons a as ih =>
      rw [List.find?_cons]
      by_cases ha : p a = true
      · have hax : a = x := hu a (List.mem_cons_self a as) ha
        subst hax
        simp [ha]
      · have ha' : p a = false := by simpa using ha
        simp only [ha']
        have hx' : x ∈ as := by
          rcases List.mem_cons.mp hx with rfl | h
          · exact absurd hp ha
          · exact h
        exact ih hx' (fun y hy hpy => hu y (List.mem_cons_of_mem _ hy) hpy)

theorem lookup_map_self {es : List String} {f : String → Nat} {t : String}
    (ht : t ∈ es) (hnd : es.Nodup) :
    List.lookup t (es.map (fun x => (x, f x))) = some (f t) := by
  induction es with
  | nil => cases ht
  | cons a as ih =>
      rw [List.nodup_cons] at hnd
      simp only [List.map_cons, List.lookup_cons]
      by_cases hta : t = a
      · subst hta
        simp
      · have : (t == a) = false := by simpa using hta
        rw [this]
        rcases List.mem_cons.mp ht with rfl | h
        · exact absurd rfl hta
        · exact ih h hnd.2

theorem mem_searchUsers_sub {search : Option String} {l : List User} {x : User}
    (h : x ∈ searchUsers search l) : x ∈ l := by
  cases search with
  | none => exact h
  | some s =>
      simp only [searchUsers] at h
      by_cases hs : (s == "") = true
      · rw [if_pos hs] at h
        exact h
      · rw [if_neg hs] at h
        exact (List.mem_filter.mp h).1

theorem mem_searchReports_sub {search : Option String} {l : List ServiceReport}
    {x : ServiceReport} (h : x ∈ searchReports search l) : x ∈ l := by
  cases search with
  | none => exact h
  | some s =>
      simp only [searchReports] at h
      by_cases hs : (s == "") = true
      · rw [if_pos hs] at h
        exact h
      · rw [if_neg hs] at h
        exact (List.mem_filter.mp h).1

theorem mem_searchRecent_sub {db : Db} {search : Option String}
    {l : List ServiceReport} {x : ServiceReport}
    (h : x ∈ searchRecent db search l) : x ∈ l := by
  cases search with
  | none => exact h
  | some s =>
      simp only [searchRecent] at h
      by_cases hs : (s == "") = true
      · rw [if_pos hs] at h
        exact h
      · rw [if_neg hs] at h
        exact (List.mem_filter.mp h).1

theorem mem_searchSoldJoin_sub {search : Option String}
    {l : List (Machine × SoldMachine)} {x : Machine × SoldMachine}
    (h : x ∈ searchSoldJoin search l) : x ∈ l := by
  cases search with
  | none => exact h
  | some s =>
      simp only [searchSoldJoin] at h
      by_cases hs : (s == "") = true
      · rw [if_pos hs] at h
        exact h
      · rw [if_neg hs] at h
        exact (List.mem_filter.mp h).1

theorem soldMachineIds_sub (db : Db) (tid : String) (search : Option String) :
    ∀ i ∈ soldMachineIds db tid search, i ∈ db.machines.map (fun m => m.id) := by
  intro i hi
  unfold soldMachineIds at hi
  rw [mem_distinctKeepFirst] at hi
  rcases List.mem_map.mp hi with ⟨pr, hpr, hid⟩
  have hpr2 : pr ∈ soldJoinRows db tid := mem_searchSoldJoin_sub hpr
  unfold soldJoinRows at hpr2
  rcases List.mem_flatMap.mp hpr2 with ⟨m, hm, hprm⟩
  rcases List.mem_map.mp hprm with ⟨sm, _, hpr3⟩
  have hm2 : m ∈ db.machines := (List.mem_filter.mp hm).1
  subst hpr3
  exact List.mem_map.mpr ⟨m, hm2, hid⟩

theorem length_filter_by_ids (ids : List String) (ms : List Machine)
    (hid : ids.Nodup) (hms : (ms.map (fun m => m.id)).Nodup)
    (hsub : ∀ i ∈ ids, i ∈ ms.map (fun m => m.id)) :
    (ms.filter (fun m => ids.contains m.id)).length = ids.length := by
  have h1 : (ms.map (fun m => m.id)).filter (fun i => ids.contains i)
      = (ms.filter (fun m => ids.contains m.id)).map (fun m => m.id) :=
    List.filter_map (fun m => m.id) ms
  have h2 : ((ms.map (fun m => m.id)).filter (fun i => ids.contains i)).length
      = ((ms.filter (fun m => ids.contains m.id))).length := by
    rw [h1, List.length_map]
  have hperm : List.Perm ((ms.map (fun m => m.id)).filter (fun i => ids.contains i)) ids := by
    apply (List.perm_ext_iff_of_nodup (hms.filter _) hid).mpr
    intro a
    rw [List.mem_filter]
    constructor
    · rintro ⟨_, hc⟩
      exact List.elem_iff.mp hc
    · intro ha
      exact ⟨hsub a ha, List.elem_iff.mpr ha⟩
  rw [← h2, hperm.length_eq]

theorem pyLower_eq_empty_iff {s : String} : pyLower s = "" ↔ s = "" := by
  unfold pyLower
  constructor
  · intro h
    have hd : s.data.map Char.toLower = ([] : List Char) := congrArg String.data h
    have : s.data = [] := List.map_eq_nil_iff.mp hd
    cases s
    simp_all
  · intro h
    subst h
    rfl

theorem mem_sortReportsSql {sb so : String} {l : List ServiceReport}
    {x : ServiceReport} : x ∈ sortReportsSql sb so l ↔ x ∈ l := by
  unfold sortReportsSql
  split <;> exact mem_sortByKey

theorem mem_sortRecent {sb so : String} {l : List ServiceReport}
    {x : ServiceReport} : x ∈ sortRecent sb so l ↔ x ∈ l := by
  unfold sortRecent
  exact mem_sortByKey

/-! ## Claim theorems -/

/-- C2: for every existing SoldMachine carrying serial number s, a
create-sold-machine request with serial_no = s fails with Conflict (the 400
already-exists rejection) before any insert; for every existing Machine
carrying part number p, a create-machine request with part_no = p fails with
Conflict before any upload or insert, provided the requested equipment type
exists (the type is resolved first and a missing type is a NotFound
instead). An error result leaves the store unchanged: no row is inserted. -/
theorem c2_unique_serial_and_part_conflict (db : Db) (sdata : SoldMachineCreate)
    (mdata : MachineCreate) (type_name : String) (fileS fileM : Bool)
    (upload : Option String) (nid1 nid2 now1 now2 : String) (p : String)
    (hserial : ∃ sm ∈ db.soldMachines, sm.serial_no = some sdata.serial_no)
    (htype : ∃ t ∈ db.types, t.type = type_name)
    (hp : mdata.part_no = some p)
    (hpart : ∃ m ∈ db.machines, m.part_no = some p) :
    create_sold_machine sdata fileS nid1 now1 db = .error .conflict ∧
    create_machine_by_type type_name mdata fileM upload nid2 now2 db
      = .error .conflict := by
  constructor
  · obtain ⟨sm, hsm, hser⟩ := hserial
    have hsome : (db.soldMachines.find?
        (fun x => x.serial_no == some sdata.serial_no)).isSome :=
      List.find?_isSome.mpr ⟨sm, hsm, beq_iff_eq.mpr hser⟩
    obtain ⟨y, hy⟩ := Option.isSome_iff_exists.mp hsome
    simp only [create_sold_machine, hy]
  · obtain ⟨t, htm, hteq⟩ := htype
    have htsome : (db.types.find? (fun x => x.type == type_name)).isSome :=
      List.find?_isSome.mpr ⟨t, htm, beq_iff_eq.mpr hteq⟩
    obtain ⟨t0, hty⟩ := Option.isSome_iff_exists.mp htsome
    obtain ⟨m, hmm, hmeq⟩ := hpart
    have hmsome : (db.machines.find? (fun x => x.part_no == mdata.part_no)).isSome := by
      refine List.find?_isSome.mpr ⟨m, hmm, ?_⟩
      rw [hp, hmeq]
      exact beq_iff_eq.mpr rfl
    obtain ⟨m0, hmy⟩ := Option.isSome_iff_exists.mp hmsome
    simp only [create_machine_by_type, hty, hmy]

/-- Closed instantiation of the C2 theorem at the concrete dataset dbC2. -/
theorem c2_unique_serial_and_part_conflict_witness :
    create_sold_machine { serial_no := "SN-001" } false "n1" "ts1" dbC2
      = .error .conflict ∧
    create_machine_by_type "pump" { model_no := "PX900", part_no := some "P-1" }
      false none "n2" "ts2" dbC2 = .error .conflict :=
  c2_unique_serial_and_part_conflict dbC2 { serial_no := "SN-001" }
    { model_no := "PX900", part_no := some "P-1" } "pump" false false none
    "n1" "n2" "ts1" "ts2" "P-1"
    ⟨{ id := "s1", machine_id := "m1", serial_no := some "SN-001" },
      by decide, rfl⟩
    ⟨{ id := "t1", type := "pump" }, by decide, rfl⟩
    rfl
    ⟨{ id := "m1", model_no := "PX100", part_no := some "P-1",
       type_id := some "t1" }, by decide, rfl⟩

/-- C4 (code bug evaluation): a create-sold-machine request naming a part
number no Machine carries crashes with an uncaught AttributeError (the
source never checks the machine lookup for None before reading machine.id)
instead of failing with NotFound, and inserts no row; a request whose
serial_no is already taken does fail with Conflict, as the claim states. -/
theorem c4_create_sold_machine_missing_machine_crashes :
    create_sold_machine { serial_no := "SN-9", part_no := some "P-404" }
        false "nid" "ts" dbC2 = .error .pythonError ∧
    create_sold_machine { serial_no := "SN-001", part_no := some "P-404" }
        false "nid" "ts" dbC2 = .error .conflict := by
  exact ⟨rfl, rfl⟩

/-- C6 (code bug evaluation): every invocation of update_machine_details
fails with a server error and performs no update, because the body
references the undefined name machine_id (NameError) before doing anything
else; the claimed partial-update and upsert behaviour is unreachable. -/
theorem c6_update_machine_details_always_errors :
    ∀ (sold_machine_id : String) (machine_data : List (String × String))
      (db : Db),
      update_machine_details sold_machine_id machine_data db
        = .error .serverError := by
  intro _ _ _
  rfl

/-- C7 (code bug evaluation): on a store where user u7 authored report r7
carrying stored file k7, delete_user succeeds and deletes the user row, yet
requests zero object-store deletions (the helper module never imports
AWSService, so every per-file attempt dies with a swallowed NameError), and
the outcome is identical whether the identity-provider deletion succeeds or
fails (that failure is indeed non-fatal). -/
theorem c7_delete_user_requests_no_object_store_deletes :
    deleteUserKeys "u7" true dbC7 = some [] ∧
    deleteUserKeys "u7" false dbC7 = some [] ∧
    ((reportsOfUser dbC7 "u7").flatMap (fun r => filesOfReport dbC7 r)).map
        (fun f => f.file_key) = ["k7"] ∧
    delete_user "u7" true dbC7
      = .ok ({ dbC7 with users := [] }, []) := by
  exact ⟨rfl, rfl, rfl, rfl⟩

/-- C5 counterexample: on dataset dbC5 with sort_order asc, the listing
with sort_by nonexistent_column returns the two users in the opposite order
of the listing with sort_by created_at, because the get_users_by_role
fallback hardcodes descending created_at while the explicit created_at sort
honours asc. -/
theorem c5_sort_fallback_counterexample :
    usersPageItems "distributor" none "nonexistent_column" "asc" 1 10 dbC5 ≠
    usersPageItems "distributor" none "created_at" "asc" 1 10 dbC5 := by
  decide

/-- C5 amended: the fallback ordering for an unknown sort_by coincides with
the created_at ordering whenever sort_order is desc (the default); for
get_sold_machines_by_type, whose Python-side sort applies sort_order in the
fallback too, the orderings coincide for every sort_order. -/
theorem c5_sort_fallback_amended (db : Db) (role_name type_name : String)
    (search : Option String) (so so2 : String) (page limit : Nat)
    (hdesc : pyLower so = "desc") :
    get_users_by_role role_name search "nonexistent_column" so page limit db
      = get_users_by_role role_name search "created_at" so page limit db ∧
    get_sold_machines_by_type type_name search "nonexistent_column" so2 page limit db
      = get_sold_machines_by_type type_name search "created_at" so2 page limit db := by
  constructor
  · have hfull : ∀ rid, usersFullList db rid search "nonexistent_column" so
        = usersFullList db rid search "created_at" so := by
      intro rid
      show sortByKey (fun u => u.created_at) true
            (searchUsers search (roleFilteredUsers db rid))
          = sortByKey (userSortKey "created_at") (pyLower so == "desc")
            (searchUsers search (roleFilteredUsers db rid))
      rw [hdesc]
      rfl
    unfold get_users_by_role
    cases db.roles.find? (fun r => r.role_name == role_name) with
    | none => rfl
    | some ro => simp only [hfull ro.id]
  · rfl

/-- Closed instantiation of the amended C5 theorem at the concrete dataset
dbC3 with the default descending order. -/
theorem c5_sort_fallback_amended_witness :
    get_users_by_role "distributor" none "nonexistent_column" "desc" 1 10 dbC3
      = get_users_by_role "distributor" none "created_at" "desc" 1 10 dbC3 ∧
    get_sold_machines_by_type "pump" none "nonexistent_column" "desc" 1 10 dbC3
      = get_sold_machines_by_type "pump" none "created_at" "desc" 1 10 dbC3 :=
  c5_sort_fallback_amended dbC3 "distributor" "pump" none "desc" "desc" 1 10 rfl

/-- C10: in get_user_service_reports and get_recent_activities the visible
scope is role-dependent: a caller whose resolved role name equals admin
case-insensitively sees the full report set the operation ranges over (no
author restriction), any other caller sees only reports bearing its own
user id; every returned page item lies in that scope, and the admin
check of the operations holds exactly when the User row of the caller resolves to a role
named admin case-insensitively. -/
theorem c10_role_scoped_report_visibility (db : Db) (uid : String) (u : User)
    (hu : db.users.find? (fun x => x.id == uid) = some u) :
    c10Contract db uid ∧
    (isAdminUser db uid = true ↔
      ∃ rid role, u.role_id = some rid ∧
        db.roles.find? (fun r => r.id == rid) = some role ∧
        pyLower role.role_name = "admin") := by
  constructor
  · refine ⟨?_, ?_, ?_, ?_⟩
    · intro hadm
      constructor
      · unfold userServiceReportsScope
        rw [if_pos hadm]
      · unfold recentActivitiesScope
        rw [if_pos hadm]
    · intro hadm
      have hadm2 : ¬ isAdminUser db uid = true := by simp [hadm]
      constructor
      · unfold userServiceReportsScope
        rw [if_neg hadm2]
      · unfold recentActivitiesScope
        rw [if_neg hadm2]
    · intro search sb so p L r hr
      have h1 : r ∈ paginate (sortReportsSql sb so
          (searchReports search (userServiceReportsScope db uid))) p L := hr
      exact mem_searchReports_sub (mem_sortReportsSql.mp (mem_paginate h1))
    · intro search sb so p L r hr
      have h1 : r ∈ paginate (sortRecent sb so
          (searchRecent db search (recentActivitiesScope db uid))) p L := hr
      exact mem_searchRecent_sub (mem_sortRecent.mp (mem_paginate h1))
  · unfold isAdminUser
    rw [hu]
    simp only []
    cases hrid : u.role_id with
    | none =>
        constructor
        · intro h
          simp only [] at h
          cases h
        · rintro ⟨rid, role, hr1, _, _⟩
          cases hr1
    | some rid =>
        cases hrole : db.roles.find? (fun r => r.id == rid) with
        | none =>
            constructor
            · intro h
              simp only [] at h
              rw [hrole] at h
              cases h
            · rintro ⟨rid2, role2, hr1, hr2, _⟩
              cases hr1
              rw [hrole] at hr2
              cases hr2
        | some role =>
            constructor
            · intro h
              simp only [] at h
              rw [hrole] at h
              simp only [] at h
              exact ⟨rid, role, rfl, hrole, eq_of_beq h⟩
            · rintro ⟨rid2, role2, hr1, hr2, hr3⟩
              cases hr1
              rw [hrole] at hr2
              cases hr2
              simp only []
              rw [hrole]
              simp only []
              exact beq_iff_eq.mpr hr3

/-- Closed instantiation of the C10 theorem at the concrete dataset dbC10
for the admin caller ua. -/
theorem c10_role_scoped_report_visibility_witness :
    c10Contract dbC10 "ua" ∧
    (isAdminUser dbC10 "ua" = true ↔
      ∃ rid role, (some "ro1" : Option String) = some rid ∧
        dbC10.roles.find? (fun r => r.id == rid) = some role ∧
        pyLower role.role_name = "admin") :=
  c10_role_scoped_report_visibility dbC10 "ua"
    { id := "ua", role_id := some "ro1", name := some "Adm" } rfl

/-- C8 counterexample: the assembled detail view shows the own
name of the author, not a fixed organization name, for admin-authored reports: two stores
differing only in the name of the admin author (Alice and Bob, both resolved to
a role named admin) yield two different display names, each equal to the
own name of that author. -/
theorem c8_admin_display_name_counterexample :
    detailUserName "r1" dbC8a = some "Alice" ∧
    detailUserName "r1" dbC8b = some "Bob" ∧
    isAdminUser dbC8a "u1" = true ∧
    isAdminUser dbC8b "u1" = true := by
  exact ⟨rfl, rfl, rfl, rfl⟩

/-- C8 amended: whenever the report detail assembly finds its report,
author and service type, the author display name is the own name of the author
with fallback to the email of the author and then to the fixed string Unknown
User, independently of every role row - there is no admin special case. -/
theorem c8_display_name_is_author_name (db : Db) (reportId : String)
    (presign : String → Option String) (bucket region : String)
    (r : ServiceReport) (u : User) (st : ServiceType)
    (hrow : detailRow db reportId = some (r, u, st)) :
    ∃ d, get_service_report_detail reportId presign bucket region db = .ok d ∧
      d.user_name = pyOrStr u.name (pyOrStr u.email "Unknown User") ∧
      ∀ roles2, get_service_report_detail reportId presign bucket region
          { db with roles := roles2 }
        = get_service_report_detail reportId presign bucket region db := by
  have hroles : ∀ roles2, get_service_report_detail reportId presign bucket region
      { db with roles := roles2 }
      = get_service_report_detail reportId presign bucket region db :=
    fun _ => rfl
  refine ⟨assembleDetail reportId presign bucket region db r u st, ?_, rfl, hroles⟩
  unfold get_service_report_detail
  rw [hrow]

/-- Closed instantiation of the amended C8 theorem at the concrete dataset
dbC8a. -/
theorem c8_display_name_is_author_name_witness :
    ∃ d, get_service_report_detail "r1" (fun _ => none) "bkt" "reg" dbC8a
        = .ok d ∧
      d.user_name = pyOrStr (some "Alice") (pyOrStr (some "alice@x.io")
        "Unknown User") ∧
      ∀ roles2, get_service_report_detail "r1" (fun _ => none) "bkt" "reg"
          { dbC8a with roles := roles2 }
        = get_service_report_detail "r1" (fun _ => none) "bkt" "reg" dbC8a :=
  c8_display_name_is_author_name dbC8a "r1" (fun _ => none) "bkt" "reg"
    { id := "r1", user_id := some "u1", service_type_id := some "st1" }
    { id := "u1", role_id := some "ro1", name := some "Alice",
      email := some "alice@x.io" }
    { id := "st1", service_type := "Warranty" } rfl

/-- C1: deleting an existing Machine removes, within the one operation,
every SoldMachine row referencing it, every ServiceReport referencing those
SoldMachine rows together with every ServiceReportFile and
ServiceReportPart row of those reports, every ServiceReportPart row
referencing the Machine directly as a used part, and the Machine row
itself; an object-store deletion is requested for the own
file_key of the Machine and for the key of every deleted ServiceReportFile. -/
theorem c1_delete_machine_cascade (machine_id : String) (db : Db)
    (machine : Machine)
    (hfind : db.machines.find? (fun m => m.id == machine_id) = some machine) :
    cascadeDeleteOk machine_id db machine := by
  have hp := List.find?_some hfind
  have hmid : machine.id = machine_id := by
    simp only [] at hp
    exact eq_of_beq hp
  unfold cascadeDeleteOk
  unfold delete_machine
  rw [hfind]
  refine ⟨_, rfl, ?_, ?_, ?_, ?_, ?_, ?_, ?_⟩
  · intro sm hsm heq
    have h2 := (List.mem_filter.mp hsm).2
    rw [hmid, heq] at h2
    simp at h2
  · intro r hr
    have h2 := (List.mem_filter.mp hr).2
    rw [hmid] at h2
    simpa using h2
  · intro f hf r hr hsub heq
    have h2 := (List.mem_filter.mp hf).2
    rw [Bool.not_eq_true', List.any_eq_false] at h2
    have hrmem : r ∈ db.serviceReports.filter (reportInSubtree db machine.id) := by
      rw [hmid]
      exact List.mem_filter.mpr ⟨hr, hsub⟩
    have := h2 r hrmem
    rw [heq] at this
    simp at this
  · intro p hp
    have h2 := (List.mem_filter.mp hp).2
    rw [Bool.and_eq_true, Bool.not_eq_true', Bool.not_eq_true',
        List.any_eq_false] at h2
    constructor
    · intro r hr hsub heq
      have hrmem : r ∈ db.serviceReports.filter (reportInSubtree db machine.id) := by
        rw [hmid]
        exact List.mem_filter.mpr ⟨hr, hsub⟩
      have := h2.1 r hrmem
      rw [heq] at this
      simp at this
    · intro heq
      have := h2.2
      rw [hmid, heq] at this
      simp at this
  · intro m hm heq
    have h2 := (List.mem_filter.mp hm).2
    rw [heq] at h2
    simp at h2
  · exact List.mem_cons_self _ _
  · intro f hf r hr hsub heq
    refine List.mem_cons_of_mem _ ?_
    unfold reportInSubtree at hsub
    rw [List.any_eq_true] at hsub
    obtain ⟨sm, hsm, hsmid⟩ := hsub
    rw [← hmid] at hsm
    refine List.mem_flatMap.mpr ⟨sm, hsm, ?_⟩
    refine List.mem_flatMap.mpr ⟨r, ?_, ?_⟩
    · exact List.mem_filter.mpr ⟨hr, hsmid⟩
    · exact List.mem_map.mpr ⟨f, List.mem_filter.mpr
        ⟨hf, beq_iff_eq.mpr heq⟩, rfl⟩

/-- Closed instantiation of the C1 theorem at the cascade-delete
scenario dataset of the spec dbC1. -/
theorem c1_delete_machine_cascade_witness : cascadeDeleteOk "m1" dbC1 mC1 :=
  c1_delete_machine_cascade "m1" dbC1 mC1 rfl

/-- C3: for a fixed dataset, filter and sort, both get_users_by_role and
get_sold_machines_by_type return, on every page p with page size L, exactly
the rows full[(p-1)L .. pL) of the full filtered sorted row set (hence at
most L rows), report total as the size of that full set and has_next and
has_previous by the page arithmetic, and the pages 1 .. ceil(N / L)
concatenate to exactly the full set - no duplicates, no omissions. The
machine listing needs the primary-key uniqueness of machine ids for its
distinct-parent total to equal its row count. -/
theorem c3_pagination_completeness (db : Db) (role_name type_name : String)
    (search : Option String) (sb so : String) (L : Nat) (ro : Role)
    (t : TypeRow)
    (hro : db.roles.find? (fun r => r.role_name == role_name) = some ro)
    (ht : db.types.find? (fun x => x.type == type_name) = some t)
    (hL : 0 < L)
    (hpk : (db.machines.map (fun m => m.id)).Nodup) :
    c3Contract db role_name type_name search sb so L ro t := by
  have hur : ∀ p, get_users_by_role role_name search sb so p L db
      = .ok { total := (usersFullList db ro.id search sb so).length, page := p,
              limit := L,
              has_next := decide (p * L < (usersFullList db ro.id search sb so).length),
              has_previous := decide (1 < p),
              items := paginate (usersFullList db ro.id search sb so) p L } := by
    intro p
    unfold get_users_by_role
    rw [hro]
  have hmlen : (soldMachinesFullList db t.id search sb so).length
      = (soldMachineIds db t.id search).length := by
    show (sortByKey (machineSortKey (if machineAttrs.contains sb then sb else "created_at"))
        (pyLower so == "desc")
        (db.machines.filter (fun m => (soldMachineIds db t.id search).contains m.id))).length
      = (soldMachineIds db t.id search).length
    rw [length_sortByKey]
    exact length_filter_by_ids _ _ (nodup_distinctKeepFirst _) hpk
      (soldMachineIds_sub db t.id search)
  have hmr : ∀ p, get_sold_machines_by_type type_name search sb so p L db
      = .ok { total := (soldMachineIds db t.id search).length, page := p,
              limit := L,
              has_next := decide (p * L < (soldMachineIds db t.id search).length),
              has_previous := decide (1 < p),
              items := paginate (soldMachinesFullList db t.id search sb so) p L } := by
    intro p
    unfold get_sold_machines_by_type
    rw [ht]
  unfold c3Contract
  refine ⟨?_, ?_, ?_, ?_⟩
  · intro p
    refine ⟨_, hur p, ?_⟩
    unfold listingPageOk
    refine ⟨rfl, length_paginate_le _ _ _, rfl, ?_, ?_⟩
    · exact decide_eq_true_iff
    · exact decide_eq_true_iff
  · have hitems : ∀ p, usersPageItems role_name search sb so p L db
        = paginate (usersFullList db ro.id search sb so) p L := by
      intro p
      unfold usersPageItems
      rw [hur p]
    unfold unionOfPages
    have hmap : (List.range (pageCount (usersFullList db ro.id search sb so).length L)).map
          (fun i => usersPageItems role_name search sb so (i + 1) L db)
        = (List.range (pageCount (usersFullList db ro.id search sb so).length L)).map
          (fun i => ((usersFullList db ro.id search sb so).drop (i * L)).take L) := by
      apply List.map_congr_left
      intro i _
      rw [hitems (i + 1)]
      rfl
    rw [hmap]
    exact flatten_chunks L hL _ _ (le_pageCount_mul _ L hL)
  · intro p
    refine ⟨_, hmr p, ?_⟩
    unfold listingPageOk
    refine ⟨rfl, length_paginate_le _ _ _, hmlen.symm, ?_, ?_⟩
    · rw [hmlen]
      exact decide_eq_true_iff
    · exact decide_eq_true_iff
  · have hitems : ∀ p, soldPageItems type_name search sb so p L db
        = paginate (soldMachinesFullList db t.id search sb so) p L := by
      intro p
      unfold soldPageItems
      rw [hmr p]
    unfold unionOfPages
    have hmap : (List.range (pageCount (soldMachinesFullList db t.id search sb so).length L)).map
          (fun i => soldPageItems type_name search sb so (i + 1) L db)
        = (List.range (pageCount (soldMachinesFullList db t.id search sb so).length L)).map
          (fun i => ((soldMachinesFullList db t.id search sb so).drop (i * L)).take L) := by
      apply List.map_congr_left
      intro i _
      rw [hitems (i + 1)]
      rfl
    rw [hmap]
    exact flatten_chunks L hL _ _ (le_pageCount_mul _ L hL)

/-- Closed instantiation of the C3 theorem at the concrete dataset dbC3
with page size 1. -/
theorem c3_pagination_completeness_witness :
    c3Contract dbC3 "distributor" "pump" none "created_at" "desc" 1
      { id := "ro1", role_name := "distributor" } { id := "t1", type := "pump" } :=
  c3_pagination_completeness dbC3 "distributor" "pump" none "created_at" "desc" 1
    { id := "ro1", role_name := "distributor" } { id := "t1", type := "pump" }
    rfl rfl (by decide) (by decide)

/-- C9 counterexample: with two case-variant ServiceType rows named AMC and
amc carrying one and two reports, the histogram entry for AMC is 1 (the
count of the first case-insensitively matching name group), not the 3
reports whose ServiceType name matches AMC case-insensitively as the claim
states. -/
theorem c9_histogram_counterexample :
    List.lookup "AMC" (get_service_type_statistics dbC9) = some 1 ∧
    specServiceTypeCount dbC9 "AMC" = 3 := by
  exact ⟨rfl, rfl⟩

/-- C9 amended: the histogram always returns exactly one entry per expected
taxonomy type, in order, each defaulting to 0; and whenever all ServiceType
rows matching an expected type case-insensitively agree on one exact name -
the intended taxonomy shape - the entry carries exactly the count of
ServiceReport rows whose ServiceType name matches that type
case-insensitively (counts of several distinct case-variant name groups are
not summed: the count of the first group is taken, as the counterexample
shows). -/
theorem c9_histogram_amended (db : Db) (t : String)
    (ht : t ∈ expectedServiceTypes)
    (huniq : ∀ st1 ∈ db.serviceTypes, ∀ st2 ∈ db.serviceTypes,
        pyLower st1.service_type = pyLower t → pyLower st2.service_type = pyLower t →
        st1.service_type = st2.service_type) :
    (get_service_type_statistics db).map Prod.fst = expectedServiceTypes ∧
    List.lookup t (get_service_type_statistics db)
      = some (specServiceTypeCount db t) := by
  have htne : pyLower t ≠ "" := by
    have ht0 : t ≠ "" := by
      simp only [expectedServiceTypes, List.mem_cons, List.not_mem_nil,
        or_false] at ht
      rcases ht with rfl | rfl | rfl | rfl | rfl <;> decide
    intro hcontra
    exact ht0 (pyLower_eq_empty_iff.mp hcontra)
  constructor
  · unfold get_service_type_statistics
    rw [List.map_map]
    have hcomp : (Prod.fst ∘ fun x => ((x,
        match (serviceTypeCountsDict db).find?
            (fun g => !(g.1 == "") && pyLower g.1 == pyLower t) with
        | some g => g.2
        | none => 0) : String × Nat)) = id := rfl
    rw [show (Prod.fst ∘ fun x : String => ((x,
        match (serviceTypeCountsDict db).find?
            (fun g => !(g.1 == "") && pyLower g.1 == pyLower x) with
        | some g => g.2
        | none => 0) : String × Nat)) = fun x => x from rfl]
    exact List.map_id _
  · have hnd : expectedServiceTypes.Nodup := by decide
    unfold get_service_type_statistics
    rw [lookup_map_self ht hnd]
    congr 1
    by_cases hex : ∃ st ∈ db.serviceTypes, pyLower st.service_type = pyLower t
    · obtain ⟨st0, hst0, hst0m⟩ := hex
      have hfind2 : (distinctKeepFirst (db.serviceTypes.map
            (fun st => st.service_type))).find?
          ((fun g : String × Nat => !(g.1 == "") && pyLower g.1 == pyLower t)
            ∘ (fun name => (name, serviceTypeGroupCount db name)))
          = some st0.service_type := by
        apply find?_eq_some_of_unique
        · rw [mem_distinctKeepFirst]
          exact List.mem_map.mpr ⟨st0, hst0, rfl⟩
        · show (!(st0.service_type == "") && (pyLower st0.service_type == pyLower t)) = true
          have hne : st0.service_type ≠ "" := by
            intro hcon
            rw [hcon] at hst0m
            exact htne hst0m.symm
          rw [Bool.and_eq_true]
          constructor
          · rw [Bool.not_eq_true', beq_eq_false_iff_ne]
            exact hne
          · exact beq_iff_eq.mpr hst0m
        · intro y hy hqy
          rw [mem_distinctKeepFirst] at hy
          obtain ⟨sty, hsty, hyname⟩ := List.mem_map.mp hy
          have hqy2 : (!(y == "") && (pyLower y == pyLower t)) = true := hqy
          rw [Bool.and_eq_true] at hqy2
          have hym : pyLower y = pyLower t := beq_iff_eq.mp hqy2.2
          rw [← hyname]
          refine huniq sty hsty st0 hst0 ?_ hst0m
          rw [hyname]
          exact hym
      have hfind : (serviceTypeCountsDict db).find?
          (fun g => !(g.1 == "") && pyLower g.1 == pyLower t)
          = some (st0.service_type, serviceTypeGroupCount db st0.service_type) := by
        unfold serviceTypeCountsDict
        rw [List.find?_map, hfind2]
        rfl
      rw [hfind]
      show serviceTypeGroupCount db st0.service_type = specServiceTypeCount db t
      unfold serviceTypeGroupCount specServiceTypeCount
      congr 1
      apply List.filter_congr
      intro r _
      rw [Bool.eq_iff_iff, List.any_eq_true, List.any_eq_true]
      constructor
      · rintro ⟨st, hst, hp⟩
        rw [Bool.and_eq_true] at hp
        refine ⟨st, hst, ?_⟩
        rw [Bool.and_eq_true]
        refine ⟨?_, hp.2⟩
        rw [beq_iff_eq.mp hp.1]
        exact beq_iff_eq.mpr hst0m
      · rintro ⟨st, hst, hp⟩
        rw [Bool.and_eq_true] at hp
        refine ⟨st, hst, ?_⟩
        rw [Bool.and_eq_true]
        refine ⟨?_, hp.2⟩
        exact beq_iff_eq.mpr
          (huniq st hst st0 hst0 (beq_iff_eq.mp hp.1) hst0m)
    · have hfind : (serviceTypeCountsDict db).find?
          (fun g => !(g.1 == "") && pyLower g.1 == pyLower t) = none := by
        rw [List.find?_eq_none]
        intro g hg
        unfold serviceTypeCountsDict at hg
        obtain ⟨name, hname, hgeq⟩ := List.mem_map.mp hg
        rw [mem_distinctKeepFirst] at hname
        obtain ⟨st, hstm, hsteq⟩ := List.mem_map.mp hname
        intro hq
        rw [← hgeq] at hq
        have hq2 : (!(name == "") && (pyLower name == pyLower t)) = true := hq
        rw [Bool.and_eq_true] at hq2
        exact hex ⟨st, hstm, by rw [hsteq]; exact beq_iff_eq.mp hq2.2⟩
      rw [hfind]
      show (0 : Nat) = specServiceTypeCount db t
      unfold specServiceTypeCount
      have hnil : db.serviceReports.filter (fun r => db.serviceTypes.any
          (fun st => pyLower st.service_type == pyLower t
            && some st.id == r.service_type_id)) = [] := by
        rw [List.filter_eq_nil_iff]
        intro r _ hcon
        rw [List.any_eq_true] at hcon
        obtain ⟨st, hst, hp⟩ := hcon
        rw [Bool.and_eq_true] at hp
        exact hex ⟨st, hst, beq_iff_eq.mp hp.1⟩
      rw [hnil]
      rfl

/-- Closed instantiation of the amended C9 theorem at the dataset dbC8a,
whose single Warranty service-type row matches the expected type Warranty
uniquely. -/
theorem c9_histogram_amended_witness :
    (get_service_type_statistics dbC8a).map Prod.fst = expectedServiceTypes ∧
    List.lookup "Warranty" (get_service_type_statistics dbC8a)
      = some (specServiceTypeCount dbC8a "Warranty") :=
  c9_histogram_amended dbC8a "Warranty" (by decide) (by decide)

end VacuuMVP
